import Mathlib

/-!
Shallow embedding of the TuyaDevice client (src/index.js) and proofs about it.

The embedding models:
* the pending-resolver table `_resolvers` (a JS object keyed by sequence
  numbers) as a list of registered keys, with `Object.keys` ordering
  modelled by sorting the keys ascending, which is how V8 enumerates
  integer-like keys;
* `_packetHandler` (src/index.js lines 385-421) as a function from the
  table and an inbound packet to the emitted events and the new table,
  with the JS `TypeError` raised by calling `undefined` modelled as a
  distinguished outcome;
* `_send` (lines 218-239) as a state transition plus a promise status,
  with the response environment given by an oracle saying whether a
  resolve ever fires for a stamped sequence number;
* the constructor argument checks (lines 34-48);
* `get` result selection (lines 112-122);
* `find` (lines 507-587) as a step function over inbound discovery
  events followed by the `pTimeout` fallback.
-/

namespace Tuya

/-- One decoded packet as produced by the message parser: command byte,
sequence number and (decoded) payload.  The payload type is a parameter. -/
structure Packet (π : Type) where
  commandByte : Nat
  sequenceN : Nat
  payload : π
deriving DecidableEq

/-- Observable actions of the packet handler: a `data` event emission and
the invocation of a registered resolver (identified by the sequence key it
was registered under). -/
inductive Evt (π : Type) where
  | data (payload : π) (commandByte : Nat) (sequenceN : Nat)
  | resolve (key : Nat) (payload : π)
deriving DecidableEq

/-- Result of running a JS handler: normal return or an uncaught
`TypeError` (raised when the code invokes `undefined` as a function). -/
inductive JsOutcome (α : Type) where
  | ok (a : α)
  | typeError
deriving DecidableEq

/-- `this._resolvers[k] = fn`: adds the key `k` to the table (assignment to
an existing key replaces the resolver but leaves the key set unchanged). -/
def setKey (tbl : List Nat) (k : Nat) : List Nat :=
  if k ∈ tbl then tbl else tbl ++ [k]

/-- Ascending insertion, used to model the enumeration order of
`Object.keys` on integer-like keys. -/
def insertAsc (k : Nat) : List Nat → List Nat
  | [] => [k]
  | a :: t => if k ≤ a then k :: a :: t else a :: insertAsc k t

/-- `Object.keys(this._resolvers)` enumerates integer-like keys in
ascending numeric order; we model the key list sorted ascending. -/
def sortKeys : List Nat → List Nat
  | [] => []
  | a :: t => insertAsc a (sortKeys t)

/-- Embedding of `_packetHandler` (src/index.js lines 385-421).
Command `0x09` (pong) and `0x07` (set ack) return early with no event and
the table untouched.  Every other packet emits a `data` event; if its
sequence matches a registered key that resolver fires and the key is
deleted; otherwise, if the sequence is `0`, the resolver under
`Object.keys(this._resolvers)[0]` is invoked — `typeError` when the table
is empty — and the code then executes `delete this._resolvers[packet.sequenceN]`,
i.e. it deletes key `0`, not the key whose resolver just fired. -/
def packetHandler {π : Type} (tbl : List Nat) (p : Packet π) :
    JsOutcome (List (Evt π) × List Nat) :=
  if p.commandByte = 9 then JsOutcome.ok ([], tbl)
  else if p.commandByte = 7 then JsOutcome.ok ([], tbl)
  else
    let ds : List (Evt π) := [Evt.data p.payload p.commandByte p.sequenceN]
    if p.sequenceN ∈ tbl then
      JsOutcome.ok (ds ++ [Evt.resolve p.sequenceN p.payload], tbl.erase p.sequenceN)
    else if p.sequenceN = 0 then
      match (sortKeys tbl).head? with
      | none => JsOutcome.typeError
      | some k => JsOutcome.ok (ds ++ [Evt.resolve k p.payload], tbl.erase 0)
    else
      JsOutcome.ok (ds, tbl)

/-- Mutable per-device state touched by `_send`: the `_connected` flag,
the `_currentSequenceN` counter and the resolver key table. -/
structure DevState where
  connected : Bool
  currentSequenceN : Nat
  resolvers : List Nat
deriving DecidableEq

/-- One attempt body of `_send` (lines 226-237): increments the sequence
counter, stamps it into the buffer, writes, and registers a resolver under
the new sequence number.  Returns the new state and the stamped number. -/
def sendAttempt (st : DevState) : DevState × Nat :=
  (DevState.mk st.connected (st.currentSequenceN + 1)
    (setKey st.resolvers (st.currentSequenceN + 1)),
   st.currentSequenceN + 1)

/-- Status of a JS promise: settled resolved, settled rejected, or still
pending (never settled). -/
inductive PStatus (α ε : Type) where
  | resolved (a : α)
  | rejected (e : ε)
  | pending
deriving DecidableEq

/-- Errors `_send` can surface: the synchronous throw when not connected,
and the error `pRetry` throws once its retry budget is exhausted. -/
inductive SendErr where
  | notConnected
  | requestFailed
deriving DecidableEq

/-- Full observable effect of one `_send` call: the promise status, the
final device state and the sequence numbers successfully written. -/
structure SendTrace (π : Type) where
  status : PStatus π SendErr
  finalState : DevState
  writes : List Nat

/-- The `pRetry` loop around the attempt body of `_send`.  `responds n`
says whether a resolve for stamped sequence `n` ever fires (a matching
response); `writeFails n` says whether `client.write` throws synchronously
on that attempt (the only path that rejects the attempt promise and hence
the only trigger for a retry).  `fuel` is the remaining retry budget
(`pRetry` is configured with `retries: 5`).  An attempt whose write
succeeds but that never receives a matching resolve leaves its promise
pending, and `pRetry` then waits on it forever. -/
def sendAttemptsGo {π : Type} (responds : Nat → Option π) (writeFails : Nat → Bool) :
    Nat → DevState → List Nat → SendTrace π
  | fuel, st, ws =>
    if writeFails (st.currentSequenceN + 1) then
      match fuel with
      | 0 => SendTrace.mk (PStatus.rejected SendErr.requestFailed)
          (DevState.mk st.connected (st.currentSequenceN + 1) st.resolvers) ws
      | f + 1 => sendAttemptsGo responds writeFails f
          (DevState.mk st.connected (st.currentSequenceN + 1) st.resolvers) ws
    else
      match responds (st.currentSequenceN + 1) with
      | some p => SendTrace.mk (PStatus.resolved p) (sendAttempt st).1
          (ws ++ [st.currentSequenceN + 1])
      | none => SendTrace.mk PStatus.pending (sendAttempt st).1
          (ws ++ [st.currentSequenceN + 1])

/-- Embedding of `_send` (lines 218-239): a synchronous throw when
`isConnected()` is false — before anything is written, any sequence number
consumed or any resolver registered — and otherwise the `pRetry` wrapper
with a budget of 5 retries. -/
def sendRun {π : Type} (responds : Nat → Option π) (writeFails : Nat → Bool)
    (st : DevState) : SendTrace π :=
  if st.connected then sendAttemptsGo responds writeFails 5 st []
  else SendTrace.mk (PStatus.rejected SendErr.notConnected) st []

/-- C10: for every inbound packet with sequence number 0 that is neither a
heartbeat reply (0x09) nor a set acknowledgement (0x07), when the
pending-request table is empty the sequence-0 fallback reads
`Object.keys(this._resolvers)[0]` (which is `undefined`) and invokes it,
raising a `TypeError` instead of ignoring the packet. -/
theorem seq0_fallback_empty_table_crashes (π : Type) (p : Packet π)
    (h9 : p.commandByte ≠ 9) (h7 : p.commandByte ≠ 7) (h0 : p.sequenceN = 0) :
    packetHandler [] p = JsOutcome.typeError := by
  simp [packetHandler, h9, h7, h0, sortKeys]

/-- Witness for C10 at a concrete packet (command 10, sequence 0). -/
theorem seq0_fallback_empty_table_crashes_witness :
    packetHandler ([] : List Nat) (Packet.mk 10 0 (0 : Nat)) = JsOutcome.typeError :=
  seq0_fallback_empty_table_crashes Nat (Packet.mk 10 0 0) (by decide) (by decide) rfl

/-- C2 (code evaluation at the failing input): with pending table `[1]`,
an inbound packet with sequence 0 fires resolver 1, but the table after
handling is still `[1]` — `delete this._resolvers[packet.sequenceN]`
deletes key 0, not the fulfilled key — so a second sequence-0 packet fires
the same resolver 1 again.  The fulfilled entry is not removed. -/
theorem seq0_fallback_leaves_entry :
    packetHandler [1] (Packet.mk 10 0 (5 : Nat)) =
      JsOutcome.ok ([Evt.data 5 10 0, Evt.resolve 1 5], [1]) ∧
    packetHandler [1] (Packet.mk 10 0 (6 : Nat)) =
      JsOutcome.ok ([Evt.data 6 10 0, Evt.resolve 1 6], [1]) := by
  constructor <;> rfl

/-- C3 (counterexample): heartbeat traffic can affect pending user
requests.  From a fresh connected state, `_sendPing` goes through `_send`
and registers resolver 1; a user request then registers resolver 2.  A
device reply that omits the sequence echo (sequence 0) is diverted by the
fallback to the ping resolver 1, and the user entry 2 is not resolved —
whereas without the ping the same reply resolves the user entry. -/
theorem heartbeat_can_divert_seq0_fallback :
    (sendAttempt (DevState.mk true 0 [])).1 = DevState.mk true 1 [1] ∧
    (sendAttempt (DevState.mk true 1 [1])).1 = DevState.mk true 2 [1, 2] ∧
    packetHandler [1, 2] (Packet.mk 10 0 (7 : Nat)) =
      JsOutcome.ok ([Evt.data 7 10 0, Evt.resolve 1 7], [1, 2]) ∧
    packetHandler [1] (Packet.mk 10 0 (7 : Nat)) =
      JsOutcome.ok ([Evt.data 7 10 0, Evt.resolve 1 7], [1]) := by
  refine ⟨rfl, rfl, rfl, rfl⟩

/-- C3 (amended): heartbeat replies (0x09) and set acknowledgements (0x07)
are swallowed — no event, table unchanged; every other packet first emits
a `data` event carrying (payload, command, sequence) and then resolves the
exactly matching entry, removing it; and an outgoing ping, going through
`_send`, registers its own entry in the pending table. -/
theorem packet_dispatch_amended (π : Type) :
    (∀ (tbl : List Nat) (p : Packet π), p.commandByte = 9 ∨ p.commandByte = 7 →
        packetHandler tbl p = JsOutcome.ok ([], tbl)) ∧
    (∀ (tbl : List Nat) (p : Packet π), p.commandByte ≠ 9 → p.commandByte ≠ 7 →
        p.sequenceN ∈ tbl →
        packetHandler tbl p =
          JsOutcome.ok ([Evt.data p.payload p.commandByte p.sequenceN,
                         Evt.resolve p.sequenceN p.payload], tbl.erase p.sequenceN)) ∧
    (∀ st : DevState,
        (sendAttempt st).1.resolvers = setKey st.resolvers (st.currentSequenceN + 1)) := by
  refine ⟨?_, ?_, ?_⟩
  · rintro tbl p (h | h) <;> simp [packetHandler, h]
  · intro tbl p h9 h7 hm
    simp [packetHandler, h9, h7, hm]
  · intro st
    rfl

/-- Witness for the amended C3 statement at concrete inputs. -/
theorem packet_dispatch_amended_witness :
    packetHandler [3] (Packet.mk 9 3 (0 : Nat)) = JsOutcome.ok ([], [3]) ∧
    packetHandler [4] (Packet.mk 10 4 (1 : Nat)) =
      JsOutcome.ok ([Evt.data 1 10 4, Evt.resolve 4 1], List.erase [4] 4) ∧
    (sendAttempt (DevState.mk true 0 [])).1.resolvers = setKey [] 1 :=
  ⟨(packet_dispatch_amended Nat).1 [3] (Packet.mk 9 3 0) (Or.inl rfl),
   (packet_dispatch_amended Nat).2.1 [4] (Packet.mk 10 4 1)
     (by decide) (by decide) (by simp),
   (packet_dispatch_amended Nat).2.2 (DevState.mk true 0 [])⟩

/-- C1 (code evaluation at the failing input): against a device that never
delivers a matching response (`responds` is constantly `none`) and with no
synchronous write errors, a `_send` on a connected state performs exactly
one attempt — stamping and writing one fresh sequence number and
registering one resolver — and its promise stays `pending` forever: the
attempt promise has no response timeout, so it never rejects, `pRetry`
never retries, and no `RequestFailedError` is ever surfaced. -/
theorem send_never_responds_stalls (π : Type) (st : DevState)
    (h : st.connected = true) :
    (sendRun (fun _ => (none : Option π)) (fun _ => false) st).status =
      PStatus.pending ∧
    (sendRun (fun _ => (none : Option π)) (fun _ => false) st).writes =
      [st.currentSequenceN + 1] ∧
    (sendRun (fun _ => (none : Option π)) (fun _ => false) st).finalState.resolvers =
      setKey st.resolvers (st.currentSequenceN + 1) := by
  rw [sendRun, if_pos h, sendAttemptsGo]
  simp [sendAttempt]

/-- Witness for C1 at a concrete connected state. -/
theorem send_never_responds_stalls_witness :
    (sendRun (fun _ => (none : Option Nat)) (fun _ => false)
      (DevState.mk true 0 [])).status = PStatus.pending :=
  (send_never_responds_stalls Nat (DevState.mk true 0 []) rfl).1

/-- C4: a `_send` issued while not connected throws synchronously with the
not-connected error; the device state is unchanged (no sequence number
consumed, no resolver registered) and nothing is written to the transport,
for every response environment. -/
theorem send_not_connected_rejects (π : Type) (responds : Nat → Option π)
    (writeFails : Nat → Bool) (st : DevState) (h : st.connected = false) :
    sendRun responds writeFails st =
      SendTrace.mk (PStatus.rejected SendErr.notConnected) st [] := by
  rw [sendRun, if_neg]
  rw [h]
  simp

/-- Witness for C4 at a concrete disconnected state. -/
theorem send_not_connected_rejects_witness :
    sendRun (fun _ => (none : Option Nat)) (fun _ => false)
      (DevState.mk false 3 [2]) =
      SendTrace.mk (PStatus.rejected SendErr.notConnected)
        (DevState.mk false 3 [2]) [] :=
  send_not_connected_rejects Nat (fun _ => none) (fun _ => false)
    (DevState.mk false 3 [2]) rfl

/-- `checkIfValidString` (src/index.js lines 461-463): true exactly for a
string value of non-zero length; `none` models a non-string (undefined). -/
def checkIfValidString : Option String → Bool
  | some s => decide (0 < s.length)
  | none => false

/-- Constructor options (lines 34): every field may be omitted; defaults
(`port = 6668`, `gwID = id`, `version = 3.1`) are applied on destructuring
and are therefore folded into `mkTuyaDevice` below. -/
structure TuyaConfig where
  ip : Option String
  port : Option Nat
  id : Option String
  gwID : Option String
  key : Option String
  productKey : Option String
  version : Option ℚ
deriving DecidableEq

/-- The `this.device` record as populated by a successful construction. -/
structure DeviceInfo where
  ip : Option String
  port : Nat
  id : Option String
  gwID : Option String
  key : Option String
  productKey : Option String
  version : ℚ
deriving DecidableEq

/-- `this.device.key.length`; only read after `checkIfValidString` has
passed, so the `none` value is never reached on the throwing condition. -/
def keyLength : Option String → Nat
  | some s => s.length
  | none => 0

/-- Embedding of the constructor argument checks (lines 34-48): throws if
neither `id` nor `ip` is a non-empty string, throws if `key` is not a
string of length exactly 16, and otherwise builds the device record with
the destructuring defaults. -/
def mkTuyaDevice (c : TuyaConfig) : Except String DeviceInfo :=
  if !(checkIfValidString c.id || checkIfValidString c.ip) then
    Except.error "ID and IP are missing from device."
  else if !checkIfValidString c.key || keyLength c.key != 16 then
    Except.error "Key is missing or incorrect."
  else
    Except.ok (DeviceInfo.mk c.ip (c.port.getD 6668) c.id
      (match c.gwID with
       | some g => some g
       | none => c.id)
      c.key c.productKey (c.version.getD (31 / 10)))

/-- Whether a construction succeeded. -/
def exceptIsOk {ε α : Type} : Except ε α → Bool
  | Except.ok _ => true
  | Except.error _ => false

/-- C6: construction fails exactly when neither the identifier nor the
address is a non-empty string or the key is not a string of length 16; and
for every configuration passing both checks with port, gateway id and
version omitted, it succeeds with port 6668, version 3.1 and gateway
identifier equal to the identifier. -/
theorem constructor_validation (c : TuyaConfig) :
    (exceptIsOk (mkTuyaDevice c) = true ↔
      ((checkIfValidString c.id = true ∨ checkIfValidString c.ip = true) ∧
        ∃ s, c.key = some s ∧ s.length = 16)) ∧
    (c.port = none → c.gwID = none → c.version = none →
      ∀ d, mkTuyaDevice c = Except.ok d →
        d.port = 6668 ∧ d.version = 31 / 10 ∧ d.gwID = c.id) := by
  constructor
  · rw [mkTuyaDevice]
    rcases hab : (checkIfValidString c.id || checkIfValidString c.ip) with _ | _
    · rw [Bool.or_eq_false_iff] at hab
      simp [exceptIsOk, hab]
    · rw [Bool.or_eq_true] at hab
      rcases hkey : c.key with _ | s
      · simp [exceptIsOk, checkIfValidString, hkey, hab]
      · rcases hlen : decide (s.length = 16) with _ | _
        · rw [decide_eq_false_iff_not] at hlen
          have hne : (keyLength (some s) != 16) = true := by
            simp [keyLength, hlen]
          simp only [hne, Bool.or_true, if_true]
          simp [exceptIsOk, hkey, hlen, hab]
        · rw [decide_eq_true_eq] at hlen
          have hvk : checkIfValidString (some s) = true := by
            simp [checkIfValidString]
            omega
          have hne : (keyLength (some s) != 16) = false := by
            simp [keyLength, hlen]
          simp only [hkey, hvk, hne, Bool.not_true, Bool.false_or, if_false]
          simp [exceptIsOk, hab, hlen]
  · intro hport hgw hver d hok
    rw [mkTuyaDevice] at hok
    split at hok
    · exact absurd hok (by simp)
    · split at hok
      · exact absurd hok (by simp)
      · rw [Except.ok.injEq] at hok
        subst hok
        rw [hport, hgw, hver]
        exact ⟨rfl, rfl, rfl⟩

/-- A concrete valid configuration: id given, ip omitted, 16-byte key. -/
def cfgW : TuyaConfig :=
  TuyaConfig.mk none none (some "dev1") none (some "0123456789abcdef") none none

/-- The device record the constructor produces from `cfgW`. -/
def devW : DeviceInfo :=
  DeviceInfo.mk none 6668 (some "dev1") (some "dev1")
    (some "0123456789abcdef") none (31 / 10)

/-- Witness for C6: `cfgW` passes the checks and gets the defaults. -/
theorem constructor_validation_witness :
    devW.port = 6668 ∧ devW.version = 31 / 10 ∧ devW.gwID = some "dev1" :=
  (constructor_validation cfgW).2 rfl rfl rfl devW rfl

/-- The decoded response document a successful `get` receives: the `dps`
map (string property keys) plus possibly other fields, abstracted by
`extra`. -/
structure GetData (π : Type) where
  dps : List (String × π)
  extra : Option π
deriving DecidableEq

/-- What `get` resolves with: the whole document, or one property value
(`none` models `undefined` for an absent property). -/
inductive GetReturn (π : Type) where
  | whole (d : GetData π)
  | value (v : Option π)
deriving DecidableEq

/-- JS property lookup `data.dps[k]`. -/
def dpsLookup {π : Type} (l : List (String × π)) (k : String) : Option π :=
  match l.find? (fun e => e.1 == k) with
  | some e => some e.2
  | none => none

/-- JS truthiness of a possibly absent number: `undefined` and `0` are
falsy. -/
def truthyOptNat : Option Nat → Bool
  | some n => n != 0
  | none => false

/-- The options `get` accepts; the `dps` index is a JS number, used as a
string property key on lookup. -/
structure GetOptions where
  schema : Option Bool
  dps : Option Nat
deriving DecidableEq

/-- Embedding of the response selection in `get` (src/index.js lines
112-122): `options.schema === true` returns the whole document; otherwise
`else if (options.dps)` — a truthiness test — returns
`data.dps[options.dps]`; otherwise `data.dps["1"]`. -/
def getHandle {π : Type} (o : GetOptions) (data : GetData π) : GetReturn π :=
  if o.schema = some true then GetReturn.whole data
  else if truthyOptNat o.dps then
    GetReturn.value (dpsLookup data.dps (toString (o.dps.getD 0)))
  else GetReturn.value (dpsLookup data.dps "1")

/-- A concrete response document distinguishing properties "0" and "1". -/
def getDataW : GetData Bool := GetData.mk [("0", false), ("1", true)] none

/-- C9 (counterexample): with `options.dps` given but equal to `0`, `get`
returns the value of property "1" (here `true`), not the raw value of
property 0 (here `false`): the dispatch tests truthiness, not presence. -/
theorem get_dps_zero_counterexample :
    getHandle (GetOptions.mk none (some 0)) getDataW = GetReturn.value (some true) ∧
    dpsLookup getDataW.dps (toString (0 : Nat)) = some false := by
  constructor <;> rfl

/-- C9 (amended): `schema = true` returns the whole document; a given and
truthy (nonzero) `dps` returns `data.dps[options.dps]`; an omitted or
falsy (zero) `dps` returns `data.dps["1"]`. -/
theorem get_result_selection_amended (π : Type) (o : GetOptions) (data : GetData π) :
    (o.schema = some true → getHandle o data = GetReturn.whole data) ∧
    (o.schema ≠ some true → ∀ n, o.dps = some n → n ≠ 0 →
      getHandle o data = GetReturn.value (dpsLookup data.dps (toString n))) ∧
    (o.schema ≠ some true → o.dps = none ∨ o.dps = some 0 →
      getHandle o data = GetReturn.value (dpsLookup data.dps "1")) := by
  refine ⟨?_, ?_, ?_⟩
  · intro hs
    simp [getHandle, hs]
  · intro hs n hd hn
    simp [getHandle, hs, truthyOptNat, hd, hn]
  · rintro hs (hd | hd) <;> simp [getHandle, hs, truthyOptNat, hd]

/-- Witness for the amended C9 statement: `dps = 2` selects property "2". -/
theorem get_result_selection_amended_witness :
    getHandle (GetOptions.mk none (some 2))
        (GetData.mk [("1", false), ("2", true)] none) =
      GetReturn.value (dpsLookup [("1", false), ("2", true)] (toString 2)) :=
  (get_result_selection_amended Bool (GetOptions.mk none (some 2))
      (GetData.mk [("1", false), ("2", true)] none)).2.1
    (by simp) 2 rfl (by decide)

/-- One entry of `this.foundDevices`. -/
structure FoundDevice where
  id : String
  ip : String
deriving DecidableEq

/-- The predicate of the `some` dedup check in `find` (src/index.js line
543): same identifier and same address. -/
def samePair (e d : FoundDevice) : Bool := e.id == d.id && e.ip == d.ip

/-- Embedding of the insertion at lines 543-545: push the device only if
no entry with the same (id, ip) pair is already present. -/
def addFound (arr : List FoundDevice) (d : FoundDevice) : List FoundDevice :=
  if arr.any (fun e => samePair e d) then arr else arr ++ [d]

/-- The deduplication invariant: no two entries share the (id, ip) pair. -/
def foundNoDup (arr : List FoundDevice) : Prop :=
  List.Pairwise (fun a b => samePair a b = false) arr

/-- C8: every insertion into the discovered-device list preserves the
deduplication invariant; a second broadcast with the same (id, ip) pair
inserts nothing; and when the pair is absent the insertion appends exactly
one entry. -/
theorem found_devices_dedup (arr : List FoundDevice) (d : FoundDevice)
    (h : foundNoDup arr) :
    foundNoDup (addFound arr d) ∧
    addFound (addFound arr d) d = addFound arr d ∧
    (arr.any (fun e => samePair e d) = false → addFound arr d = arr ++ [d]) := by
  have hself : samePair d d = true := by
    simp [samePair]
  rcases hany : arr.any (fun e => samePair e d) with _ | _
  · have habs : ∀ e ∈ arr, samePair e d = false := by
      intro e he
      rcases hq : samePair e d with _ | _
      · rfl
      · exact absurd (List.any_eq_true.mpr ⟨e, he, hq⟩) (by rw [hany]; simp)
    have hadd : addFound arr d = arr ++ [d] := by
      rw [addFound, hany]
      simp
    refine ⟨?_, ?_, fun _ => hadd⟩
    · rw [hadd, foundNoDup, List.pairwise_append]
      refine ⟨h, List.pairwise_singleton _ _, ?_⟩
      intro a ha b hb
      rw [List.mem_singleton] at hb
      subst hb
      exact habs a ha
    · have hany2 : (arr ++ [d]).any (fun e => samePair e d) = true := by
        rw [List.any_append]
        simp [hself]
      rw [hadd, addFound, hany2]
      simp
  · have hadd : addFound arr d = arr := by
      rw [addFound, hany]
      simp
    rw [hadd]
    refine ⟨h, ?_, ?_⟩
    · rw [addFound, hany]
      simp
    · intro hcontra
      exact absurd hcontra (by simp)

/-- Witness for C8 at a concrete device and the empty list. -/
theorem found_devices_dedup_witness :
    foundNoDup (addFound [] (FoundDevice.mk "id1" "10.0.0.5")) ∧
    addFound (addFound [] (FoundDevice.mk "id1" "10.0.0.5"))
        (FoundDevice.mk "id1" "10.0.0.5") =
      addFound [] (FoundDevice.mk "id1" "10.0.0.5") ∧
    addFound [] (FoundDevice.mk "id1" "10.0.0.5") =
      [] ++ [FoundDevice.mk "id1" "10.0.0.5"] :=
  ⟨(found_devices_dedup [] (FoundDevice.mk "id1" "10.0.0.5") List.Pairwise.nil).1,
   (found_devices_dedup [] (FoundDevice.mk "id1" "10.0.0.5") List.Pairwise.nil).2.1,
   (found_devices_dedup [] (FoundDevice.mk "id1" "10.0.0.5") List.Pairwise.nil).2.2 rfl⟩

/-- The fields of a parsed discovery broadcast payload. -/
structure Broadcast where
  gwId : String
  ip : String
  productKey : String
  version : ℚ
deriving DecidableEq

/-- Events a bound discovery listener can receive: a datagram (whose parse
either succeeds with a payload or throws), or a socket error. -/
inductive FindEvent where
  | msg (parsed : Option Broadcast)
  | sockErr
deriving DecidableEq

/-- How the promise returned by `find` can settle. -/
inductive FindOutcome where
  | resolvedTrue
  | resolvedAll (devs : List FoundDevice)
  | rejectedParse
  | rejectedSock
  | rejectedTimeout
deriving DecidableEq

/-- The state of one `find` call: the mutable `this.device` fields the
handler reads and adopts, the accumulated `foundDevices`, whether the UDP
listener is still bound with its handlers attached, and the settlement of
the returned promise (`none` while pending). -/
structure FindState where
  deviceIp : Option String
  deviceId : Option String
  deviceGwId : Option String
  deviceProductKey : Option String
  deviceVersion : Option ℚ
  found : List FoundDevice
  listenerOpen : Bool
  settled : Option FindOutcome
deriving DecidableEq

/-- Promise settlement: the first resolve or reject wins, later ones are
no-ops. -/
def settle (cur : Option FindOutcome) (o : FindOutcome) : Option FindOutcome :=
  match cur with
  | some x => some x
  | none => some o

/-- Embedding of the listener handlers in `find` (src/index.js lines
522-571).  Once the listener has been closed and its handlers removed no
event is processed.  A datagram whose parse throws rejects the promise and
leaves the listener bound (the catch block does not close it).  A socket
error likewise rejects without cleanup.  A parsed datagram is inserted
into the deduplicated found list; when `all` is false and its gwId or ip
matches the configured device, the device fields are adopted, the listener
is closed with handlers removed and the promise resolves. -/
def findStep (all : Bool) (st : FindState) (e : FindEvent) : FindState :=
  if st.listenerOpen = false then st
  else
    match e with
    | FindEvent.sockErr =>
        { st with settled := settle st.settled FindOutcome.rejectedSock }
    | FindEvent.msg none =>
        { st with settled := settle st.settled FindOutcome.rejectedParse }
    | FindEvent.msg (some b) =>
        if !all && (st.deviceId == some b.gwId || st.deviceIp == some b.ip) then
          { st with
              found := addFound st.found (FoundDevice.mk b.gwId b.ip)
              deviceIp := some b.ip
              deviceId := some b.gwId
              deviceGwId := some b.gwId
              deviceProductKey := some b.productKey
              deviceVersion := some b.version
              listenerOpen := false
              settled := settle st.settled FindOutcome.resolvedTrue }
        else { st with found := addFound st.found (FoundDevice.mk b.gwId b.ip) }

/-- Processing of a sequence of listener events in arrival order. -/
def findRun (all : Bool) (st : FindState) : List FindEvent → FindState
  | [] => st
  | e :: es => findRun all (findStep all st e) es

/-- Embedding of the `pTimeout` fallback (lines 573-586): it runs only if
the promise is still pending when the timer fires; it closes the listener,
removes the handlers, and resolves with the accumulated device list when
`all` is true, otherwise rejects with the timeout error. -/
def findTimeout (all : Bool) (st : FindState) : FindState :=
  match st.settled with
  | some _ => st
  | none =>
      { st with listenerOpen := false,
                settled := some (if all then FindOutcome.resolvedAll st.found
                                 else FindOutcome.rejectedTimeout) }

/-- The early-return guard of `find` (lines 508-513): with both id and ip
already valid strings the call resolves immediately and never binds the
listener. -/
def findSkipsNetwork (id ip : Option String) : Bool :=
  checkIfValidString id && checkIfValidString ip

/-- The state of a freshly bound `find` listener for a device configured
with identifier "dev1" and no address. -/
def findInitW : FindState :=
  FindState.mk none (some "dev1") (some "dev1") none none [] true none

/-- C5 (code evaluation at the failing inputs): a datagram that fails to
parse rejects the `find` promise while the UDP listener stays bound with
its handlers attached, and it is still bound after the timeout moment
(whose cleanup callback no longer runs once the promise has settled); the
socket-error path leaks the listener the same way. -/
theorem find_parse_error_leaks_listener :
    ((findRun false findInitW [FindEvent.msg none]).settled =
        some FindOutcome.rejectedParse ∧
      (findRun false findInitW [FindEvent.msg none]).listenerOpen = true ∧
      (findTimeout false (findRun false findInitW [FindEvent.msg none])).listenerOpen =
        true) ∧
    ((findRun false findInitW [FindEvent.sockErr]).settled =
        some FindOutcome.rejectedSock ∧
      (findRun false findInitW [FindEvent.sockErr]).listenerOpen = true) := by
  refine ⟨⟨rfl, rfl, rfl⟩, rfl, rfl⟩

/-- Whether a settlement is a resolution (as opposed to pending or a
rejection). -/
def isResolvedOutcome : Option FindOutcome → Bool
  | some FindOutcome.resolvedTrue => true
  | some (FindOutcome.resolvedAll _) => true
  | _ => false

theorem isResolved_settle (cur : Option FindOutcome) (o : FindOutcome)
    (h1 : isResolvedOutcome cur = false) (h2 : isResolvedOutcome (some o) = false) :
    isResolvedOutcome (settle cur o) = false := by
  cases cur with
  | none => exact h2
  | some x => exact h1

theorem findStep_all_not_resolved (st : FindState) (e : FindEvent)
    (h : isResolvedOutcome st.settled = false) :
    isResolvedOutcome (findStep true st e).settled = false := by
  rw [findStep.eq_def]
  split
  · exact h
  · cases e with
    | sockErr => exact isResolved_settle st.settled _ h rfl
    | msg ob =>
      cases ob with
      | none => exact isResolved_settle st.settled _ h rfl
      | some b => simpa using h

theorem findRun_all_not_resolved (es : List FindEvent) : ∀ st : FindState,
    isResolvedOutcome st.settled = false →
    isResolvedOutcome (findRun true st es).settled = false := by
  induction es with
  | nil => exact fun st h => h
  | cons e es ih =>
    intro st h
    exact ih (findStep true st e) (findStep_all_not_resolved st e h)

theorem findStep_clean_all (st : FindState) (b : Broadcast) :
    (findStep true st (FindEvent.msg (some b))).settled = st.settled := by
  rw [findStep.eq_def]
  split
  · rfl
  · simp

theorem findRun_clean_all (es : List FindEvent) : ∀ st : FindState,
    (∀ e ∈ es, ∃ b, e = FindEvent.msg (some b)) →
    (findRun true st es).settled = st.settled := by
  induction es with
  | nil => exact fun st _ => rfl
  | cons e es ih =>
    intro st h
    obtain ⟨b, rfl⟩ := h _ (List.mem_cons_self e es)
    have htail : ∀ x ∈ es, ∃ b2, x = FindEvent.msg (some b2) :=
      fun x hx => h x (List.mem_cons_of_mem _ hx)
    calc (findRun true (findStep true st (FindEvent.msg (some b))) es).settled
        = (findStep true st (FindEvent.msg (some b))).settled := ih _ htail
      _ = st.settled := findStep_clean_all st b

theorem findStep_nomatch (st : FindState) (b : Broadcast)
    (hnm : (st.deviceId == some b.gwId || st.deviceIp == some b.ip) = false) :
    (findStep false st (FindEvent.msg (some b))).settled = st.settled ∧
    (findStep false st (FindEvent.msg (some b))).deviceId = st.deviceId ∧
    (findStep false st (FindEvent.msg (some b))).deviceIp = st.deviceIp := by
  rw [findStep.eq_def]
  split
  · exact ⟨rfl, rfl, rfl⟩
  · simp [hnm]

theorem findRun_nomatch (es : List FindEvent) : ∀ st : FindState,
    (∀ e ∈ es, ∃ b, e = FindEvent.msg (some b) ∧
        (st.deviceId == some b.gwId || st.deviceIp == some b.ip) = false) →
    (findRun false st es).settled = st.settled := by
  induction es with
  | nil => exact fun st _ => rfl
  | cons e es ih =>
    intro st h
    obtain ⟨b, rfl, hnm⟩ := h _ (List.mem_cons_self e es)
    obtain ⟨hset, hdid, hdip⟩ := findStep_nomatch st b hnm
    have htail : ∀ x ∈ es, ∃ b2, x = FindEvent.msg (some b2) ∧
        ((findStep false st (FindEvent.msg (some b))).deviceId == some b2.gwId ||
          (findStep false st (FindEvent.msg (some b))).deviceIp == some b2.ip) = false := by
      intro x hx
      obtain ⟨b2, rfl, hb2⟩ := h x (List.mem_cons_of_mem _ hx)
      exact ⟨b2, rfl, by rw [hdid, hdip]; exact hb2⟩
    calc (findRun false (findStep false st (FindEvent.msg (some b))) es).settled
        = (findStep false st (FindEvent.msg (some b))).settled := ih _ htail
      _ = st.settled := hset

/-- C7: for a `find` call that binds the discovery listener, starting with
a pending promise: with `all = true` no sequence of listener events ever
resolves the promise before the timeout, and if every event is a cleanly
parsed datagram the timeout resolves successfully with the accumulated
device list; with `all = false`, if every event is a cleanly parsed
datagram matching neither the configured identifier nor address, the
timeout rejects with the discovery-timeout error. -/
theorem find_timeout_behavior (es : List FindEvent) (st : FindState)
    (hbind : findSkipsNetwork st.deviceId st.deviceIp = false)
    (hstart : st.settled = none) :
    isResolvedOutcome (findRun true st es).settled = false ∧
    ((∀ e ∈ es, ∃ b, e = FindEvent.msg (some b)) →
      (findTimeout true (findRun true st es)).settled =
        some (FindOutcome.resolvedAll (findRun true st es).found)) ∧
    ((∀ e ∈ es, ∃ b, e = FindEvent.msg (some b) ∧
        (st.deviceId == some b.gwId || st.deviceIp == some b.ip) = false) →
      (findTimeout false (findRun false st es)).settled =
        some FindOutcome.rejectedTimeout) := by
  refine ⟨?_, ?_, ?_⟩
  · exact findRun_all_not_resolved es st (by rw [hstart]; rfl)
  · intro hclean
    have h1 : (findRun true st es).settled = none := by
      rw [findRun_clean_all es st hclean, hstart]
    rw [findTimeout, h1]
    simp
  · intro hnm
    have h1 : (findRun false st es).settled = none := by
      rw [findRun_nomatch es st hnm, hstart]
    rw [findTimeout, h1]
    simp

/-- A broadcast from a different device than the one `findInitW` is
configured for. -/
def bcastW : Broadcast := Broadcast.mk "other" "10.0.0.9" "pk" (31 / 10)

/-- Witness for C7: one non-matching broadcast, then the timeout; with
`all = false` the call rejects with the discovery-timeout error. -/
theorem find_timeout_behavior_witness :
    (findTimeout false (findRun false findInitW [FindEvent.msg (some bcastW)])).settled =
      some FindOutcome.rejectedTimeout :=
  (find_timeout_behavior [FindEvent.msg (some bcastW)] findInitW rfl rfl).2.2
    (by
      intro e he
      rw [List.mem_singleton] at he
      subst he
      exact ⟨bcastW, rfl, by decide⟩)

end Tuya
